import Mathlib

/-!
Shallow embedding of `fetchdata.py` (class `FetchData` with the two
operations `fetch_yahoo_finance` and `fetch_vietcap`).

Modelling conventions:
* HTTP traffic is modelled by feeding the operation the list of responses
  the network would deliver, one per request issued.  Each response carries
  a status code, a reason phrase and an already-decoded JSON body.
* Side effects relevant to the claims (issuing a request, sleeping) are
  recorded in an event trace, in the order the Python code performs them.
* Python exceptions become `Except FetchError`; the distinct `raise` sites
  of the source map to distinct `FetchError` constructors.
* Numeric cells are `Int` (the claims do not involve float behaviour);
  Unix timestamps are `Nat`; a pandas `NaN` / missing value is `none`.
* URL/query construction, headers and the start/end-date-to-epoch
  conversion of `fetch_yahoo_finance` are not modelled: no claim depends
  on them, only on the response handling.
-/

/-- Observable side effects of a fetch call, in program order:
`request` is one HTTP round trip, `sleep s` is `time.sleep(s)`. -/
inductive Event where
  | request : Event
  | sleep (seconds : Nat) : Event
  deriving Repr, DecidableEq

/-- The ways a fetch can fail, one constructor per distinct Python
exception site in `fetchdata.py`:
* `httpError` — `raise Exception(f"Error ...: ...")` on a hard HTTP status;
* `invalidFormat` — `raise ValueError("Invalid response format")`;
* `indexError` — Python `IndexError` from `[0]` on an empty list;
* `frameError` — pandas `ValueError` from mismatched array lengths
  (constructing a DataFrame from unequal columns, assigning a column of
  the wrong length, or exploding lists of unequal lengths within a row);
* `unboundResponse` — Python `UnboundLocalError` when `max_retries = 0`
  leaves `response` unassigned after the loop;
* `noResponse` — the modelled environment supplied no response for a
  request the code issues (transport never returns). -/
inductive FetchError where
  | httpError (status : Nat) (reason : String) : FetchError
  | invalidFormat : FetchError
  | indexError : FetchError
  | frameError : FetchError
  | unboundResponse : FetchError
  | noResponse : FetchError
  deriving Repr, DecidableEq

/-- An HTTP response as the code observes it: `status_code`, `reason`,
and the decoded JSON body of type `β`. -/
structure HttpResponse (β : Type) where
  status : Nat
  reason : String
  body : β
  deriving Repr, DecidableEq

/-! ## Yahoo Finance response schema

JSON shape `{ chart: { result: [ { timestamp: [...], indicators:
{ quote: [ { open, high, low, close, volume } ] } } ] } }`.  Keys the code
accesses with `.get`/`in`-checks are `Option`s; a cell of a quote array is
`Option Int` (`none` models JSON `null`, which pandas turns into `NaN`). -/

/-- One element of `indicators.quote`: the five parallel arrays. -/
structure Quote where
  «open» : List (Option Int)
  high : List (Option Int)
  low : List (Option Int)
  close : List (Option Int)
  volume : List (Option Int)
  deriving Repr, DecidableEq

/-- The `indicators` object. -/
structure Indicators where
  quote : List Quote
  deriving Repr, DecidableEq

/-- One element of `chart.result`; `timestamp` and `indicators` may be
absent (the code tests `"timestamp" not in data or "indicators" not in
data`). -/
structure ChartResult where
  timestamp : Option (List Nat)
  indicators : Option Indicators
  deriving Repr, DecidableEq

/-- The `chart` object; `result` may be absent (`.get("result", [{}])`). -/
structure Chart where
  result : Option (List ChartResult)
  deriving Repr, DecidableEq

/-- A decoded Yahoo response body; `chart` may be absent
(`.get("chart", {})`). -/
structure YahooBody where
  chart : Option Chart
  deriving Repr, DecidableEq

/-- The empty JSON object `{}` read as a `ChartResult`: both keys absent.
This is the element of the default `[{}]` in
`.get("chart", {}).get("result", [{}])`. -/
def ChartResult.emptyObj : ChartResult := ⟨none, none⟩

/-- Embeds `response.json().get("chart", {}).get("result", [{}])[0]`:
missing `chart` or `result` keys fall back to the one-element default
`[{}]`, and indexing `[0]` on an empty `result` list is an `IndexError`. -/
def chartData (b : YahooBody) : Except FetchError ChartResult :=
  let resultList : List ChartResult :=
    match b.chart with
    | none => [ChartResult.emptyObj]
    | some ch =>
      match ch.result with
      | none => [ChartResult.emptyObj]
      | some l => l
  match resultList with
  | [] => .error .indexError
  | r :: _ => .ok r

/-- A row of the Yahoo frame before `dropna`: the normalized `time` index
plus the five quote cells of one array position. -/
structure YRow where
  time : Nat
  «open» : Option Int
  high : Option Int
  low : Option Int
  close : Option Int
  volume : Option Int
  deriving Repr, DecidableEq

/-- A returned Yahoo row: a `YRow` plus the constant column the source
attaches with `.assign(index=symbol)` (the column is literally named
`index` and holds the requested symbol string). -/
structure YBar where
  time : Nat
  «open» : Option Int
  high : Option Int
  low : Option Int
  close : Option Int
  volume : Option Int
  index : String
  deriving Repr, DecidableEq

/-- Embeds `pd.to_datetime(ts, unit="s").normalize()` on one Unix-seconds
value: truncate to midnight UTC of the same calendar day. -/
def normalizeTs (ts : Nat) : Nat := ts - ts % 86400

/-- Zips the timestamp array with the five quote arrays into rows, as
`pd.DataFrame(quote)` plus the `df["time"] = ...normalize()` column
assignment do (the caller has already checked the lengths agree). -/
def buildYRows : List Nat → List (Option Int) → List (Option Int) →
    List (Option Int) → List (Option Int) → List (Option Int) → List YRow
  | t :: ts, o :: os, h :: hs, l :: ls, c :: cs, v :: vs =>
    ⟨normalizeTs t, o, h, l, c, v⟩ :: buildYRows ts os hs ls cs vs
  | _, _, _, _, _, _ => []

/-- A `YRow` survives `df.dropna()` iff none of its five cells is `NaN`. -/
def YRow.allPresent (r : YRow) : Bool :=
  r.«open».isSome && r.high.isSome && r.low.isSome &&
    r.close.isSome && r.volume.isSome

/-- Embeds the `.assign(index=symbol)` step on one row. -/
def YRow.assignSymbol (r : YRow) (symbol : String) : YBar :=
  ⟨r.time, r.«open», r.high, r.low, r.close, r.volume, symbol⟩

/-- The shape checks and frame construction applied to `result[0]`:
require `timestamp` and `indicators` (else the malformed-response
`ValueError`), take `quote[0]`, build the frame (pandas requires the
column lengths to agree), normalize the timestamps, `dropna`, and attach
the symbol column. -/
def parseResult (symbol : String) (data : ChartResult) :
    Except FetchError (List YBar) :=
  match data.timestamp, data.indicators with
  | some ts, some ind =>
    match ind.quote with
    | [] => .error .indexError
    | q :: _ =>
      if q.«open».length = q.high.length ∧ q.«open».length = q.low.length ∧
          q.«open».length = q.close.length ∧
          q.«open».length = q.volume.length then
        if ts.length = q.«open».length then
          .ok (((buildYRows ts q.«open» q.high q.low q.close
              q.volume).filter YRow.allPresent).map
            (fun r => r.assignSymbol symbol))
        else .error .frameError
      else .error .frameError
  | _, _ => .error .invalidFormat

/-- The parsing half of `fetch_yahoo_finance`, applied to whatever
response body the retry loop left in `response`: navigate to
`result[0]`, then run the shape checks and frame construction. -/
def parseYahoo (symbol : String) (b : YahooBody) :
    Except FetchError (List YBar) :=
  match chartData b with
  | .error e => .error e
  | .ok data => parseResult symbol data

/-- The retry loop of `fetch_yahoo_finance`:
`for attempt in range(max_retries)` issues a request, breaks on 200,
sleeps `5 * (attempt + 1)` and retries on 429, and raises on any other
status.  `last` holds the `response` variable from the previous
iteration; when the loop exhausts its attempts without a `break`, the
code falls through and the last response (whatever its status) is what
gets parsed.  Returns the event trace and either the response to parse
or the raised error. -/
def yahooLoop (maxRetries : Nat) :
    List (HttpResponse YahooBody) → Nat → Option (HttpResponse YahooBody) →
    List Event × Except FetchError (HttpResponse YahooBody)
  | rs, attempt, last =>
    if attempt < maxRetries then
      match rs with
      | [] => ([.request], .error .noResponse)
      | r :: rest =>
        if r.status = 200 then ([.request], .ok r)
        else if r.status = 429 then
          let tail := yahooLoop maxRetries rest (attempt + 1) (some r)
          (.request :: .sleep (5 * (attempt + 1)) :: tail.1, tail.2)
        else ([.request], .error (.httpError r.status r.reason))
    else
      match last with
      | some r => ([], .ok r)
      | none => ([], .error .unboundResponse)

/-- Embeds `FetchData.fetch_yahoo_finance`: run the retry loop against the
responses the network delivers, then parse whichever response the loop
left behind.  Returns the event trace and the outcome. -/
def fetch_yahoo_finance (maxRetries : Nat) (symbol : String)
    (responses : List (HttpResponse YahooBody)) :
    List Event × Except FetchError (List YBar) :=
  let loop := yahooLoop maxRetries responses 0 none
  (loop.1, loop.2.bind (fun r => parseYahoo symbol r.body))

/-! ## Vietcap response schema

JSON shape: an array of objects, each carrying parallel arrays under the
short keys `o, h, l, c, v, t`.  The numeric cells are raw JSON values that
`pd.to_numeric(..., errors="coerce")` later coerces; `t` carries the
Unix-seconds timestamps. -/

/-- A raw JSON scalar as found in the `o/h/l/c/v` arrays. -/
inductive JVal where
  | num (n : Int) : JVal
  | str (s : String) : JVal
  | null : JVal
  deriving Repr, DecidableEq

/-- Embeds `pd.to_numeric(x, errors="coerce")` on one cell: numbers pass
through, numeric strings parse, anything else becomes the missing-value
marker. -/
def coerceNum : JVal → Option Int
  | .num n => some n
  | .str s => s.toInt?
  | .null => none

/-- One element of the Vietcap response array: the six parallel arrays. -/
structure VietcapEntry where
  o : List JVal
  h : List JVal
  l : List JVal
  c : List JVal
  v : List JVal
  t : List Nat
  deriving Repr, DecidableEq

/-- A row of the exploded Vietcap frame, before coercion: each cell is
`Option`al because `explode` turns an empty list into a single `NaN`
cell. -/
structure VRawRow where
  t : Option Nat
  o : Option JVal
  h : Option JVal
  l : Option JVal
  c : Option JVal
  v : Option JVal
  deriving Repr, DecidableEq

/-- A returned Vietcap row: `time` from `pd.to_datetime(_, unit="s")`
(full timestamp, `none` when the cell was `NaN`), the five coerced
numeric columns, and the constant column from `.assign(index=symbol)`. -/
structure VBar where
  time : Option Nat
  «open» : Option Int
  high : Option Int
  low : Option Int
  close : Option Int
  volume : Option Int
  index : String
  deriving Repr, DecidableEq

/-- Zips the six parallel arrays of one entry into raw rows (the caller
has already checked the lengths agree). -/
def zipEntry : List Nat → List JVal → List JVal → List JVal → List JVal →
    List JVal → List VRawRow
  | t :: ts, o :: os, h :: hs, l :: ls, c :: cs, v :: vs =>
    ⟨some t, some o, some h, some l, some c, some v⟩ ::
      zipEntry ts os hs ls cs vs
  | _, _, _, _, _, _ => []

/-- Embeds `.explode(['o','h','l','c','v','t'])` on one row of the frame:
pandas requires the listed columns to have matching element counts within
the row (else `ValueError`), produces one output row per element, and
turns a row of empty lists into a single all-`NaN` row. -/
def explodeEntry (e : VietcapEntry) : Except FetchError (List VRawRow) :=
  if e.t.length = e.o.length ∧ e.t.length = e.h.length ∧
      e.t.length = e.l.length ∧ e.t.length = e.c.length ∧
      e.t.length = e.v.length then
    if e.t.length = 0 then
      .ok [⟨none, none, none, none, none, none⟩]
    else
      .ok (zipEntry e.t e.o e.h e.l e.c e.v)
  else .error .frameError

/-- Coercion and column steps applied to one exploded row: rename the
short keys, convert `t` to a timestamp, coerce the five numeric columns
(failures become markers, never errors), attach the symbol column. -/
def VRawRow.finishRow (r : VRawRow) (symbol : String) : VBar :=
  ⟨r.t, r.o.bind coerceNum, r.h.bind coerceNum, r.l.bind coerceNum,
    r.c.bind coerceNum, r.v.bind coerceNum, symbol⟩

/-- The parsing half of `fetch_vietcap`: build the frame from the
response array, explode the six parallel-array columns, rename, convert
time, coerce numerics, and attach the symbol column. -/
def parseVietcap (symbol : String) (body : List VietcapEntry) :
    Except FetchError (List VBar) :=
  match body.mapM explodeEntry with
  | .error e => .error e
  | .ok rowss => .ok (rowss.flatten.map (fun r => r.finishRow symbol))

/-- Embeds `FetchData.fetch_vietcap`: one POST request, then an
unconditional `time.sleep(self.delay)`, then the status check (any
non-200 raises), then parsing.  Returns the event trace and the
outcome. -/
def fetch_vietcap (delay : Nat) (symbol : String)
    (response : HttpResponse (List VietcapEntry)) :
    List Event × Except FetchError (List VBar) :=
  ([.request, .sleep delay],
    if response.status = 200 then parseVietcap symbol response.body
    else .error (.httpError response.status response.reason))

/-! ## Helper lemmas about the retry loop -/

/-- One loop iteration that sees a 200 breaks immediately with that
response. -/
theorem yahooLoop_200 (m a : Nat) (r : HttpResponse YahooBody)
    (rest : List (HttpResponse YahooBody))
    (last : Option (HttpResponse YahooBody))
    (ha : a < m) (hs : r.status = 200) :
    yahooLoop m (r :: rest) a last = ([.request], .ok r) := by
  rw [yahooLoop.eq_def]
  simp [ha, hs]

/-- One loop iteration that sees a 429 sleeps `5 * (attempt + 1)` seconds
and continues with the next attempt, remembering this response as the
last one seen. -/
theorem yahooLoop_429 (m a : Nat) (r : HttpResponse YahooBody)
    (rest : List (HttpResponse YahooBody))
    (last : Option (HttpResponse YahooBody))
    (ha : a < m) (hs : r.status = 429) :
    yahooLoop m (r :: rest) a last =
      (.request :: .sleep (5 * (a + 1)) ::
          (yahooLoop m rest (a + 1) (some r)).1,
        (yahooLoop m rest (a + 1) (some r)).2) := by
  rw [yahooLoop.eq_def]
  simp [ha, hs]

/-- One loop iteration that sees any status other than 200 and 429 raises
the HTTP error at once. -/
theorem yahooLoop_hard (m a : Nat) (r : HttpResponse YahooBody)
    (rest : List (HttpResponse YahooBody))
    (last : Option (HttpResponse YahooBody))
    (ha : a < m) (h200 : r.status ≠ 200) (h429 : r.status ≠ 429) :
    yahooLoop m (r :: rest) a last =
      ([.request], .error (.httpError r.status r.reason)) := by
  rw [yahooLoop.eq_def]
  simp [ha, h200, h429]

/-- When the attempts are exhausted the loop falls through with whatever
response the previous iteration stored. -/
theorem yahooLoop_exhausted (m a : Nat)
    (rs : List (HttpResponse YahooBody)) (r : HttpResponse YahooBody)
    (ha : ¬ a < m) :
    yahooLoop m rs a (some r) = ([], .ok r) := by
  rw [yahooLoop.eq_def]
  simp [ha]

/-- C10: for the global-provider operation on a 200 response, a body whose
`chart.result` is the empty list hits the `IndexError` from `[0]`, while a
body missing the `chart` key or the `result` key falls back to the `[{}]`
default and raises the malformed-response `ValueError` instead. -/
theorem c10_empty_result_index_error (maxRetries : Nat)
    (symbol reason : String) (hm : 0 < maxRetries) :
    (∀ rest, fetch_yahoo_finance maxRetries symbol
        ({ status := 200, reason := reason, body := ⟨some ⟨some []⟩⟩ } :: rest) =
      ([.request], .error .indexError)) ∧
    (∀ rest, fetch_yahoo_finance maxRetries symbol
        ({ status := 200, reason := reason, body := ⟨none⟩ } :: rest) =
      ([.request], .error .invalidFormat)) ∧
    (∀ rest, fetch_yahoo_finance maxRetries symbol
        ({ status := 200, reason := reason, body := ⟨some ⟨none⟩⟩ } :: rest) =
      ([.request], .error .invalidFormat)) := by
  refine ⟨fun rest => ?_, fun rest => ?_, fun rest => ?_⟩ <;>
    · unfold fetch_yahoo_finance
      rw [yahooLoop_200 _ _ _ _ _ hm rfl]
      rfl

/-- C10 witness: the three body shapes at concrete inputs. -/
theorem c10_empty_result_index_error_witness :
    fetch_yahoo_finance 5 "^GSPC"
        [{ status := 200, reason := "OK", body := ⟨some ⟨some []⟩⟩ }] =
      ([.request], .error .indexError) :=
  (c10_empty_result_index_error 5 "^GSPC" "OK" (by decide)).1 []

/-- C9: the Vietnamese-provider operation performs its `delay`-second
sleep right after the HTTP response, before the status check, so on a
failing status the trace is request, sleep, and only then the raised
HTTP error. -/
theorem c9_vietcap_sleeps_before_raise (delay : Nat) (symbol : String)
    (r : HttpResponse (List VietcapEntry)) (h : r.status ≠ 200) :
    fetch_vietcap delay symbol r =
      ([.request, .sleep delay], .error (.httpError r.status r.reason)) := by
  unfold fetch_vietcap
  simp [h]

/-- C9 witness: a 500 response still gets the cool-down sleep before the
error. -/
theorem c9_vietcap_sleeps_before_raise_witness :
    fetch_vietcap 1 "VNINDEX" { status := 500, reason := "Server Error", body := [] } =
      ([.request, .sleep 1], .error (.httpError 500 "Server Error")) :=
  c9_vietcap_sleeps_before_raise 1 "VNINDEX" _ (by decide)

/-- C4: a first response with status 404 makes either operation fail at
once with an HTTP error carrying 404 and the reason phrase; the trace
shows exactly one request and no retry (the Vietnamese path additionally
performs its unconditional cool-down sleep before raising). -/
theorem c4_hard_404_no_retry (maxRetries delay : Nat)
    (symbol reason : String) (yb : YahooBody)
    (rest : List (HttpResponse YahooBody)) (vb : List VietcapEntry)
    (hm : 0 < maxRetries) :
    fetch_yahoo_finance maxRetries symbol
        ({ status := 404, reason := reason, body := yb } :: rest) =
      ([.request], .error (.httpError 404 reason)) ∧
    fetch_vietcap delay symbol { status := 404, reason := reason, body := vb } =
      ([.request, .sleep delay], .error (.httpError 404 reason)) := by
  constructor
  · unfold fetch_yahoo_finance
    rw [yahooLoop_hard _ _ _ _ _ hm (by simp) (by simp)]
    rfl
  · unfold fetch_vietcap
    simp

/-- C4 witness: 404 at concrete inputs for both providers. -/
theorem c4_hard_404_no_retry_witness :
    fetch_yahoo_finance 5 "^GSPC"
        [{ status := 404, reason := "Not Found", body := ⟨none⟩ }] =
      ([.request], .error (.httpError 404 "Not Found")) ∧
    fetch_vietcap 1 "VNINDEX"
        { status := 404, reason := "Not Found", body := [] } =
      ([.request, .sleep 1], .error (.httpError 404 "Not Found")) :=
  c4_hard_404_no_retry 5 1 "^GSPC" "Not Found" ⟨none⟩ [] [] (by decide)

/-- C8: the Vietnamese-provider operation on a 200 response with parallel
arrays `t=[100,200], o=[10,11], h=[12,13], l=[9,9], c=[11,12],
v=[1000,1500]` returns exactly 2 rows, with `time` from Unix seconds 100
and 200 and the short keys renamed to the canonical field names. -/
theorem c8_vietcap_two_row_expansion (delay : Nat) (symbol reason : String) :
    fetch_vietcap delay symbol
        { status := 200, reason := reason,
          body := [{ o := [.num 10, .num 11], h := [.num 12, .num 13],
                     l := [.num 9, .num 9], c := [.num 11, .num 12],
                     v := [.num 1000, .num 1500], t := [100, 200] }] } =
      ([.request, .sleep delay],
        .ok [{ time := some 100, «open» := some 10, high := some 12,
               low := some 9, close := some 11, volume := some 1000,
               index := symbol },
             { time := some 200, «open» := some 11, high := some 13,
               low := some 9, close := some 12, volume := some 1500,
               index := symbol }]) := by
  rfl

/-- C3: for the global-provider operation on the response sequence
`[429, 429, 200]` (with at least 3 attempts allowed), the trace is
exactly request, sleep 5, request, sleep 10, request — three requests
with backoff `5 * attempt_number` — and the operation proceeds with the
200 response's body. -/
theorem c3_retry_backoff_sequence (maxRetries : Nat) (symbol : String)
    (r1 r2 r3 : HttpResponse YahooBody)
    (rest : List (HttpResponse YahooBody)) (hm : 3 ≤ maxRetries)
    (h1 : r1.status = 429) (h2 : r2.status = 429) (h3 : r3.status = 200) :
    fetch_yahoo_finance maxRetries symbol (r1 :: r2 :: r3 :: rest) =
      ([.request, .sleep 5, .request, .sleep 10, .request],
        parseYahoo symbol r3.body) ∧
    (∀ out, parseYahoo symbol r3.body = .ok out →
      fetch_yahoo_finance maxRetries symbol (r1 :: r2 :: r3 :: rest) =
        ([.request, .sleep 5, .request, .sleep 10, .request], .ok out)) := by
  have hfetch : fetch_yahoo_finance maxRetries symbol
      (r1 :: r2 :: r3 :: rest) =
      ([.request, .sleep 5, .request, .sleep 10, .request],
        parseYahoo symbol r3.body) := by
    unfold fetch_yahoo_finance
    rw [yahooLoop_429 _ _ _ _ _ (by omega) h1,
      yahooLoop_429 _ _ _ _ _ (by omega) h2,
      yahooLoop_200 _ _ _ _ _ (by omega) h3]
    simp [Except.bind]
  exact ⟨hfetch, fun out hout => by rw [hfetch, hout]⟩

/-- C3 witness: the scenario at concrete inputs, where the 200 response
carries a well-formed body and the fetch indeed succeeds after the two
sleeps and three requests. -/
theorem c3_retry_backoff_sequence_witness :
    fetch_yahoo_finance 5 "^GSPC"
        [{ status := 429, reason := "Too Many Requests", body := ⟨none⟩ },
         { status := 429, reason := "Too Many Requests", body := ⟨none⟩ },
         { status := 200, reason := "OK",
           body := ⟨some ⟨some [⟨some [86400],
             some ⟨[⟨[some 1], [some 2], [some 3], [some 4],
               [some 5]⟩]⟩⟩]⟩⟩ }] =
      ([.request, .sleep 5, .request, .sleep 10, .request],
        .ok [⟨86400, some 1, some 2, some 3, some 4, some 5, "^GSPC"⟩]) :=
  (c3_retry_backoff_sequence 5 "^GSPC" _ _ _ [] (by decide)
    rfl rfl rfl).2 _ rfl

/-- When every response is a 429 and the environment supplies exactly as
many responses as the loop has remaining attempts, the loop exhausts its
attempts and falls through with the last response it saw. -/
theorem yahooLoop_all_429 (rs : List (HttpResponse YahooBody)) :
    ∀ (m attempt : Nat) (last : Option (HttpResponse YahooBody))
      (r' : HttpResponse YahooBody),
      (∀ r ∈ rs, r.status = 429) → rs.length + attempt = m →
      rs.getLast? = some r' →
      (yahooLoop m rs attempt last).2 = .ok r' := by
  induction rs with
  | nil =>
    intro m attempt last r' _ _ hlast
    simp at hlast
  | cons r rest ih =>
    intro m attempt last r' hall hlen hlast
    have ha : attempt < m := by simp at hlen; omega
    have hs : r.status = 429 := hall r (List.mem_cons_self r rest)
    rw [yahooLoop_429 m attempt r rest last ha hs]
    cases rest with
    | nil =>
      simp at hlast
      subst hlast
      have hm : ¬ attempt + 1 < m := by simp at hlen; omega
      rw [yahooLoop_exhausted m (attempt + 1) [] r hm]
    | cons r2 rest' =>
      have hlast' : (r2 :: rest').getLast? = some r' := by
        rw [← List.getLast?_cons_cons]; exact hlast
      exact ih m (attempt + 1) (some r) r'
        (fun x hx => hall x (List.mem_cons_of_mem r hx))
        (by simp at hlen ⊢; omega) hlast'

/-- C2: when every one of the `max_retries` attempts of the
global-provider operation receives a 429 and a 200 never arrives, the
operation raises no retries-exhausted error: its outcome is exactly the
parse of the body of the last (non-200) response. -/
theorem c2_exhausted_retries_parse_last (maxRetries : Nat)
    (symbol : String) (responses : List (HttpResponse YahooBody))
    (last : HttpResponse YahooBody)
    (hlen : responses.length = maxRetries)
    (hall : ∀ r ∈ responses, r.status = 429)
    (hlast : responses.getLast? = some last) :
    (fetch_yahoo_finance maxRetries symbol responses).2 =
      parseYahoo symbol last.body := by
  show (yahooLoop maxRetries responses 0 none).2.bind
      (fun r => parseYahoo symbol r.body) = parseYahoo symbol last.body
  rw [yahooLoop_all_429 responses maxRetries 0 none last hall
    (by omega) hlast]
  rfl

/-- C2 witness: two attempts, both 429, parse the second body. -/
theorem c2_exhausted_retries_parse_last_witness :
    (fetch_yahoo_finance 2 "^GSPC"
        [{ status := 429, reason := "Too Many Requests", body := ⟨none⟩ },
         { status := 429, reason := "Too Many Requests",
           body := ⟨some ⟨some []⟩⟩ }]).2 =
      parseYahoo "^GSPC" (⟨some ⟨some []⟩⟩ : YahooBody) :=
  c2_exhausted_retries_parse_last 2 "^GSPC"
    [{ status := 429, reason := "Too Many Requests", body := ⟨none⟩ },
     { status := 429, reason := "Too Many Requests",
       body := ⟨some ⟨some []⟩⟩ }]
    { status := 429, reason := "Too Many Requests",
      body := ⟨some ⟨some []⟩⟩ }
    rfl (by decide) rfl

/-! ## Inversion lemmas for the two parsers -/

/-- A successful `parseResult` run pins down the whole shape of the
result object and shows the output is the `dropna`-filtered,
symbol-assigned frame. -/
theorem parseResult_ok_shape (symbol : String) (data : ChartResult)
    (out : List YBar) (h : parseResult symbol data = .ok out) :
    ∃ ts ind q qs,
      data.timestamp = some ts ∧ data.indicators = some ind ∧
      ind.quote = q :: qs ∧
      q.«open».length = q.high.length ∧ q.«open».length = q.low.length ∧
      q.«open».length = q.close.length ∧
      q.«open».length = q.volume.length ∧
      ts.length = q.«open».length ∧
      out = ((buildYRows ts q.«open» q.high q.low q.close
          q.volume).filter YRow.allPresent).map
        (fun r => r.assignSymbol symbol) := by
  unfold parseResult at h
  split at h
  · next ts ind hts hind =>
    split at h
    · simp at h
    · next q qs hq =>
      split at h
      · next hlens =>
        split at h
        · next hts_len =>
          exact ⟨ts, ind, q, qs, hts, hind, hq, hlens.1, hlens.2.1,
            hlens.2.2.1, hlens.2.2.2, hts_len, (Except.ok.inj h).symm⟩
        · simp at h
      · simp at h
  · simp at h

/-- A successful `parseYahoo` run factors through a successful
`chartData` navigation and a successful `parseResult`. -/
theorem parseYahoo_ok_shape (symbol : String) (b : YahooBody)
    (out : List YBar) (h : parseYahoo symbol b = .ok out) :
    ∃ data, chartData b = .ok data ∧ parseResult symbol data = .ok out := by
  unfold parseYahoo at h
  split at h
  · simp at h
  · next data hdata => exact ⟨data, hdata, h⟩

/-- A successful `parseVietcap` run factors through a successful
explosion of every entry, the output being the flattened, coerced,
symbol-assigned rows. -/
theorem parseVietcap_ok_shape (symbol : String) (body : List VietcapEntry)
    (out : List VBar) (h : parseVietcap symbol body = .ok out) :
    ∃ rowss, body.mapM explodeEntry = .ok rowss ∧
      out = rowss.flatten.map (fun r => r.finishRow symbol) := by
  unfold parseVietcap at h
  split at h
  · simp at h
  · next rowss hrowss => exact ⟨rowss, hrowss, (Except.ok.inj h).symm⟩

/-- C5: a 200 response whose result object lacks `timestamp` or
`indicators` makes the global-provider operation fail with the
malformed-response error, an error distinct from every HTTP error, and
its outcome is never a returned table in that case. -/
theorem c5_malformed_response_error (maxRetries : Nat) (symbol : String)
    (r : HttpResponse YahooBody) (rest : List (HttpResponse YahooBody))
    (data : ChartResult) (hm : 0 < maxRetries) (h200 : r.status = 200)
    (hdata : chartData r.body = .ok data)
    (hmiss : data.timestamp = none ∨ data.indicators = none) :
    fetch_yahoo_finance maxRetries symbol (r :: rest) =
      ([.request], .error .invalidFormat) ∧
    (∀ status reason,
      (FetchError.invalidFormat : FetchError) ≠ .httpError status reason) ∧
    (∀ out : List YBar,
      (fetch_yahoo_finance maxRetries symbol (r :: rest)).2 ≠ .ok out) := by
  have hp : parseYahoo symbol r.body = .error .invalidFormat := by
    unfold parseYahoo
    rw [hdata]
    unfold parseResult
    obtain ⟨ts?, ind?⟩ := data
    rcases hmiss with hmiss | hmiss <;> simp only at hmiss <;> subst hmiss
    · cases ind? <;> rfl
    · cases ts? <;> rfl
  have hf : fetch_yahoo_finance maxRetries symbol (r :: rest) =
      ([.request], .error .invalidFormat) := by
    unfold fetch_yahoo_finance
    rw [yahooLoop_200 _ _ _ _ _ hm h200]
    simp [Except.bind, hp]
  exact ⟨hf, fun status reason => by simp,
    fun out => by rw [hf]; simp⟩

/-- C5 witness: a 200 response whose single result object has
`indicators` but no `timestamp`. -/
theorem c5_malformed_response_error_witness :
    fetch_yahoo_finance 5 "^GSPC"
        [{ status := 200, reason := "OK",
           body := ⟨some ⟨some [⟨none, some ⟨[]⟩⟩]⟩⟩ }] =
      ([.request], .error .invalidFormat) :=
  (c5_malformed_response_error 5 "^GSPC"
    { status := 200, reason := "OK",
      body := ⟨some ⟨some [⟨none, some ⟨[]⟩⟩]⟩⟩ }
    [] ⟨none, some ⟨[]⟩⟩
    (by decide) rfl rfl (Or.inl rfl)).1

/-- Every row of a successful Yahoo parse carries the requested symbol in
its constant column. -/
theorem parseYahoo_symbol_constant (symbol : String) (b : YahooBody)
    (out : List YBar) (h : parseYahoo symbol b = .ok out) :
    ∀ bar ∈ out, bar.index = symbol := by
  obtain ⟨data, -, hres⟩ := parseYahoo_ok_shape symbol b out h
  obtain ⟨ts, ind, q, qs, -, -, -, -, -, -, -, -, hout⟩ :=
    parseResult_ok_shape symbol data out hres
  subst hout
  intro bar hbar
  obtain ⟨r, -, hr⟩ := List.mem_map.mp hbar
  rw [← hr]
  rfl

/-- Every row of a successful Vietcap parse carries the requested symbol
in its constant column. -/
theorem parseVietcap_symbol_constant (symbol : String)
    (body : List VietcapEntry) (out : List VBar)
    (h : parseVietcap symbol body = .ok out) :
    ∀ bar ∈ out, bar.index = symbol := by
  obtain ⟨rowss, -, hout⟩ := parseVietcap_ok_shape symbol body out h
  subst hout
  intro bar hbar
  obtain ⟨r, -, hr⟩ := List.mem_map.mp hbar
  rw [← hr]
  rfl

/-- C1: whenever either operation returns a table, the constant column
attached by `.assign(index=symbol)` equals the requested symbol on every
row. -/
theorem c1_symbol_column_constant (maxRetries delay : Nat)
    (symbol : String) (responses : List (HttpResponse YahooBody))
    (evs : List Event) (out : List YBar)
    (vresp : HttpResponse (List VietcapEntry)) (vevs : List Event)
    (vout : List VBar)
    (hy : fetch_yahoo_finance maxRetries symbol responses = (evs, .ok out))
    (hv : fetch_vietcap delay symbol vresp = (vevs, .ok vout)) :
    (∀ bar ∈ out, bar.index = symbol) ∧
    (∀ bar ∈ vout, bar.index = symbol) := by
  constructor
  · have hy2 : (yahooLoop maxRetries responses 0 none).2.bind
        (fun r => parseYahoo symbol r.body) = .ok out :=
      congrArg Prod.snd hy
    cases ho : (yahooLoop maxRetries responses 0 none).2 with
    | error e =>
      rw [ho] at hy2
      exact absurd hy2 (by simp [Except.bind])
    | ok r =>
      rw [ho] at hy2
      exact parseYahoo_symbol_constant symbol r.body out hy2
  · have hv2 : (if vresp.status = 200 then parseVietcap symbol vresp.body
        else .error (.httpError vresp.status vresp.reason)) = .ok vout :=
      congrArg Prod.snd hv
    by_cases hst : vresp.status = 200
    · rw [if_pos hst] at hv2
      exact parseVietcap_symbol_constant symbol vresp.body vout hv2
    · rw [if_neg hst] at hv2
      exact absurd hv2 (by simp)

/-- C1 witness: one successful fetch per provider, each returning one
row whose constant column is the requested symbol. -/
theorem c1_symbol_column_constant_witness :
    (⟨86400, some 1, some 2, some 3, some 4, some 5, "FOO"⟩ :
      YBar).index = "FOO" ∧
    (⟨some 100, some 10, some 12, some 9, some 11, some 1000, "FOO"⟩ :
      VBar).index = "FOO" := by
  have h := c1_symbol_column_constant 5 1 "FOO"
    [⟨200, "OK", ⟨some ⟨some [⟨some [86400],
      some ⟨[⟨[some 1], [some 2], [some 3], [some 4], [some 5]⟩]⟩⟩]⟩⟩⟩]
    [.request]
    [⟨86400, some 1, some 2, some 3, some 4, some 5, "FOO"⟩]
    ⟨200, "OK", [⟨[.num 10], [.num 12], [.num 9], [.num 11], [.num 1000],
      [100]⟩]⟩
    [.request, .sleep 1]
    [⟨some 100, some 10, some 12, some 9, some 11, some 1000, "FOO"⟩]
    rfl rfl
  exact ⟨h.1 _ (List.mem_singleton_self _), h.2 _ (List.mem_singleton_self _)⟩

/-- Number of rows `explode` produces for a Vietcap response body: one
per timestamp element of each entry, with an entry of empty lists
collapsing to a single `NaN` row. -/
def explodedRowCount (body : List VietcapEntry) : Nat :=
  (body.map (fun e => if e.t.length = 0 then 1 else e.t.length)).sum

/-- Zipping six parallel arrays of equal length yields one row per
element. -/
theorem zipEntry_length (ts : List Nat) :
    ∀ os hs ls cs vs : List JVal,
      ts.length = os.length → ts.length = hs.length →
      ts.length = ls.length → ts.length = cs.length →
      ts.length = vs.length →
      (zipEntry ts os hs ls cs vs).length = ts.length := by
  induction ts with
  | nil =>
    intro os hs ls cs vs h1 h2 h3 h4 h5
    cases os with
    | cons o os => simp at h1
    | nil =>
      cases hs with
      | cons hx hs => simp at h2
      | nil =>
        cases ls with
        | cons lx ls => simp at h3
        | nil =>
          cases cs with
          | cons cx cs => simp at h4
          | nil =>
            cases vs with
            | cons vx vs => simp at h5
            | nil => rfl
  | cons t ts ih =>
    intro os hs ls cs vs h1 h2 h3 h4 h5
    cases os with
    | nil => simp at h1
    | cons o os =>
      cases hs with
      | nil => simp at h2
      | cons hx hs =>
        cases ls with
        | nil => simp at h3
        | cons lx ls =>
          cases cs with
          | nil => simp at h4
          | cons cx cs =>
            cases vs with
            | nil => simp at h5
            | cons vx vs =>
              have hzip : zipEntry (t :: ts) (o :: os) (hx :: hs)
                  (lx :: ls) (cx :: cs) (vx :: vs) =
                  ⟨some t, some o, some hx, some lx, some cx, some vx⟩ ::
                    zipEntry ts os hs ls cs vs := rfl
              rw [hzip, List.length_cons, List.length_cons,
                ih os hs ls cs vs (by simpa using h1) (by simpa using h2)
                  (by simpa using h3) (by simpa using h4)
                  (by simpa using h5)]

/-- A successful explosion of one entry yields one row per timestamp
element, or a single `NaN` row when the lists are empty. -/
theorem explodeEntry_ok_length (e : VietcapEntry) (rows : List VRawRow)
    (h : explodeEntry e = .ok rows) :
    rows.length = if e.t.length = 0 then 1 else e.t.length := by
  unfold explodeEntry at h
  split at h
  · next hlens =>
    split at h
    · next hz => rw [if_pos hz, ← Except.ok.inj h]; rfl
    · next hz =>
      rw [if_neg hz, ← Except.ok.inj h]
      exact zipEntry_length e.t e.o e.h e.l e.c e.v hlens.1 hlens.2.1
        hlens.2.2.1 hlens.2.2.2.1 hlens.2.2.2.2
  · simp at h

/-- A successful explosion of the whole body yields, entry by entry, the
row counts `explodedRowCount` adds up. -/
theorem mapM_explode_lengths (body : List VietcapEntry) :
    ∀ rowss : List (List VRawRow),
      body.mapM explodeEntry = .ok rowss →
      rowss.map List.length =
        body.map (fun e => if e.t.length = 0 then 1 else e.t.length) := by
  induction body with
  | nil =>
    intro rowss h
    have h' : (Except.ok [] : Except FetchError (List (List VRawRow))) =
        .ok rowss := h
    rw [← Except.ok.inj h']
    rfl
  | cons e es ih =>
    intro rowss h
    rw [List.mapM_cons] at h
    cases he : explodeEntry e with
    | error err =>
      rw [he] at h
      exact absurd h (by simp [Bind.bind, Except.bind])
    | ok l =>
      rw [he] at h
      cases hes : es.mapM explodeEntry with
      | error err =>
        rw [hes] at h
        exact absurd h (by simp [Bind.bind, Except.bind])
      | ok ls =>
        rw [hes] at h
        have h' : (Except.ok (l :: ls) : Except FetchError _) =
            .ok rowss := h
        rw [← Except.ok.inj h']
        simp only [List.map_cons]
        rw [explodeEntry_ok_length e l he, ih ls hes]

/-- C6: a successful Yahoo parse returns only rows whose five numeric
cells are all present (rows with any missing cell were dropped by
`dropna`), while a successful Vietcap parse keeps exactly one output row
per exploded source row — uncoercible cells degrade to markers, never to
dropped rows. -/
theorem c6_missing_value_policies (symbol : String) (b : YahooBody)
    (out : List YBar) (vbody : List VietcapEntry) (vout : List VBar)
    (hy : parseYahoo symbol b = .ok out)
    (hv : parseVietcap symbol vbody = .ok vout) :
    (∀ bar ∈ out, bar.«open».isSome ∧ bar.high.isSome ∧
      bar.low.isSome ∧ bar.close.isSome ∧ bar.volume.isSome) ∧
    vout.length = explodedRowCount vbody := by
  constructor
  · obtain ⟨data, -, hres⟩ := parseYahoo_ok_shape symbol b out hy
    obtain ⟨ts, ind, q, qs, -, -, -, -, -, -, -, -, hout⟩ :=
      parseResult_ok_shape symbol data out hres
    subst hout
    intro bar hbar
    obtain ⟨r, hrmem, hr⟩ := List.mem_map.mp hbar
    have hall : r.allPresent = true := (List.mem_filter.mp hrmem).2
    rw [← hr]
    simp only [YRow.allPresent, Bool.and_eq_true] at hall
    exact ⟨hall.1.1.1.1, hall.1.1.1.2, hall.1.1.2, hall.1.2, hall.2⟩
  · obtain ⟨rowss, hrowss, hout⟩ := parseVietcap_ok_shape symbol vbody vout hv
    subst hout
    rw [List.length_map, List.length_flatten,
      mapM_explode_lengths vbody rowss hrowss]
    rfl

/-- C6 witness: a Yahoo body whose second row has a missing `open` (the
row is dropped) and a Vietcap entry with two null cells the coercion
cannot turn into numbers (the row is kept with markers). -/
theorem c6_missing_value_policies_witness :
    ((⟨0, some 1, some 2, some 1, some 1, some 5, "FOO"⟩ :
        YBar).«open».isSome ∧
      (⟨0, some 1, some 2, some 1, some 1, some 5, "FOO"⟩ :
        YBar).high.isSome ∧
      (⟨0, some 1, some 2, some 1, some 1, some 5, "FOO"⟩ :
        YBar).low.isSome ∧
      (⟨0, some 1, some 2, some 1, some 1, some 5, "FOO"⟩ :
        YBar).close.isSome ∧
      (⟨0, some 1, some 2, some 1, some 1, some 5, "FOO"⟩ :
        YBar).volume.isSome) ∧
    ([⟨some 100, none, none, some 9, some 11, some 1000, "FOO"⟩] :
        List VBar).length =
      explodedRowCount
        [⟨[.null], [.null], [.num 9], [.num 11], [.num 1000], [100]⟩] := by
  have h := c6_missing_value_policies "FOO"
    ⟨some ⟨some [⟨some [0, 86400],
      some ⟨[⟨[some 1, none], [some 2, some 2], [some 1, some 1],
        [some 1, some 1], [some 5, some 5]⟩]⟩⟩]⟩⟩
    [⟨0, some 1, some 2, some 1, some 1, some 5, "FOO"⟩]
    [⟨[.null], [.null], [.num 9], [.num 11], [.num 1000], [100]⟩]
    [⟨some 100, none, none, some 9, some 11, some 1000, "FOO"⟩]
    rfl rfl
  exact ⟨h.1 _ (List.mem_singleton_self _), h.2⟩

/-- With equal array lengths, the Yahoo frame's row keys are exactly the
normalized source timestamps, in order. -/
theorem buildYRows_times (ts : List Nat) :
    ∀ os hs ls cs vs : List (Option Int),
      ts.length = os.length → ts.length = hs.length →
      ts.length = ls.length → ts.length = cs.length →
      ts.length = vs.length →
      (buildYRows ts os hs ls cs vs).map YRow.time =
        ts.map normalizeTs := by
  induction ts with
  | nil =>
    intro os hs ls cs vs h1 h2 h3 h4 h5
    cases os with
    | cons o os => simp at h1
    | nil =>
      cases hs with
      | cons hx hs => simp at h2
      | nil =>
        cases ls with
        | cons lx ls => simp at h3
        | nil =>
          cases cs with
          | cons cx cs => simp at h4
          | nil =>
            cases vs with
            | cons vx vs => simp at h5
            | nil => rfl
  | cons t ts ih =>
    intro os hs ls cs vs h1 h2 h3 h4 h5
    cases os with
    | nil => simp at h1
    | cons o os =>
      cases hs with
      | nil => simp at h2
      | cons hx hs =>
        cases ls with
        | nil => simp at h3
        | cons lx ls =>
          cases cs with
          | nil => simp at h4
          | cons cx cs =>
            cases vs with
            | nil => simp at h5
            | cons vx vs =>
              have hbuild : buildYRows (t :: ts) (o :: os) (hx :: hs)
                  (lx :: ls) (cx :: cs) (vx :: vs) =
                  ⟨normalizeTs t, o, hx, lx, cx, vx⟩ ::
                    buildYRows ts os hs ls cs vs := rfl
              rw [hbuild, List.map_cons, List.map_cons,
                ih os hs ls cs vs (by simpa using h1) (by simpa using h2)
                  (by simpa using h3) (by simpa using h4)
                  (by simpa using h5)]

/-- With equal array lengths, the exploded rows carry exactly the source
timestamps, in order. -/
theorem zipEntry_times (ts : List Nat) :
    ∀ os hs ls cs vs : List JVal,
      ts.length = os.length → ts.length = hs.length →
      ts.length = ls.length → ts.length = cs.length →
      ts.length = vs.length →
      (zipEntry ts os hs ls cs vs).map VRawRow.t = ts.map some := by
  induction ts with
  | nil =>
    intro os hs ls cs vs h1 h2 h3 h4 h5
    cases os with
    | cons o os => simp at h1
    | nil =>
      cases hs with
      | cons hx hs => simp at h2
      | nil =>
        cases ls with
        | cons lx ls => simp at h3
        | nil =>
          cases cs with
          | cons cx cs => simp at h4
          | nil =>
            cases vs with
            | cons vx vs => simp at h5
            | nil => rfl
  | cons t ts ih =>
    intro os hs ls cs vs h1 h2 h3 h4 h5
    cases os with
    | nil => simp at h1
    | cons o os =>
      cases hs with
      | nil => simp at h2
      | cons hx hs =>
        cases ls with
        | nil => simp at h3
        | cons lx ls =>
          cases cs with
          | nil => simp at h4
          | cons cx cs =>
            cases vs with
            | nil => simp at h5
            | cons vx vs =>
              have hzip : zipEntry (t :: ts) (o :: os) (hx :: hs)
                  (lx :: ls) (cx :: cs) (vx :: vs) =
                  ⟨some t, some o, some hx, some lx, some cx, some vx⟩ ::
                    zipEntry ts os hs ls cs vs := rfl
              rw [hzip, List.map_cons, List.map_cons,
                ih os hs ls cs vs (by simpa using h1) (by simpa using h2)
                  (by simpa using h3) (by simpa using h4)
                  (by simpa using h5)]

/-- C7: the global-provider path maps each provider timestamp to the
midnight of its calendar day (same day index, zero time-of-day, within a
day of the original instant), while the Vietnamese-provider path carries
each timestamp through explosion and row finishing unchanged. -/
theorem c7_timestamp_granularity (u : Nat) (ts : List Nat)
    (os hs ls cs vs : List (Option Int)) (e : VietcapEntry)
    (rows : List VRawRow)
    (h1 : ts.length = os.length) (h2 : ts.length = hs.length)
    (h3 : ts.length = ls.length) (h4 : ts.length = cs.length)
    (h5 : ts.length = vs.length)
    (hex : explodeEntry e = .ok rows) (hne : e.t.length ≠ 0) :
    ((buildYRows ts os hs ls cs vs).map YRow.time =
      ts.map normalizeTs) ∧
    (normalizeTs u % 86400 = 0 ∧ normalizeTs u ≤ u ∧
      u - normalizeTs u < 86400 ∧ normalizeTs u / 86400 = u / 86400) ∧
    (rows.map VRawRow.t = e.t.map some) ∧
    (∀ (r : VRawRow) (sym : String), (r.finishRow sym).time = r.t) := by
  refine ⟨buildYRows_times ts os hs ls cs vs h1 h2 h3 h4 h5, ?_, ?_,
    fun r sym => rfl⟩
  · unfold normalizeTs
    omega
  · unfold explodeEntry at hex
    rw [if_neg hne] at hex
    split at hex
    · next hlens =>
      rw [← Except.ok.inj hex]
      exact zipEntry_times e.t e.o e.h e.l e.c e.v hlens.1 hlens.2.1
        hlens.2.2.1 hlens.2.2.2.1 hlens.2.2.2.2
    · simp at hex

/-- C7 witness: the intraday instant 90000 (1970-01-02 01:00 UTC)
normalizes to 86400 on the Yahoo path, and Unix second 100 survives the
Vietcap path unchanged. -/
theorem c7_timestamp_granularity_witness :
    ((buildYRows [90000] [some 1] [some 1] [some 1] [some 1]
        [some 1]).map YRow.time = [90000].map normalizeTs) ∧
    (normalizeTs 90000 % 86400 = 0 ∧ normalizeTs 90000 ≤ 90000 ∧
      90000 - normalizeTs 90000 < 86400 ∧
      normalizeTs 90000 / 86400 = 90000 / 86400) ∧
    (([⟨some 100, some (.num 1), some (.num 1), some (.num 1),
        some (.num 1), some (.num 1)⟩] : List VRawRow).map VRawRow.t =
      [100].map some) ∧
    ((⟨some 100, some (.num 1), some (.num 1), some (.num 1),
      some (.num 1), some (.num 1)⟩ : VRawRow).finishRow "FOO").time =
      some 100 := by
  have h := c7_timestamp_granularity 90000 [90000] [some 1] [some 1]
    [some 1] [some 1] [some 1]
    ⟨[.num 1], [.num 1], [.num 1], [.num 1], [.num 1], [100]⟩
    [⟨some 100, some (.num 1), some (.num 1), some (.num 1), some (.num 1),
      some (.num 1)⟩]
    rfl rfl rfl rfl rfl rfl (by decide)
  exact ⟨h.1, h.2.1, h.2.2.1, h.2.2.2 _ "FOO"⟩
